import Mathlib

/-!
Verification of the MCP Streamable-HTTP transport (`custom_components/mcp_client`).

This file is a shallow embedding, in Lean, of the parts of the repository that
the specification talks about:

* `transport.py` — `StreamableHTTPTransport`: connect/disconnect lifecycle,
  header construction, timeout selection, the JSON-RPC request helpers
  (`_raw_request`, `_request`, `list_tools`, `call_tool`), the request-id
  counter, and the SSE parser `_parse_sse`;
* `config_flow.py` — the HTTP-error classification in `async_step_user`
  (401 vs other statuses), realising the spec's AuthError/ConnectionError
  taxonomy;
* `llm_api.py` — `MCPTool._extract_result`;
* `security.py` — `filter_tool_results`;
* `const.py` — the integration-level timeout defaults.

Python values flowing through these functions are modelled by the `Json`
inductive below.  aiohttp and `json.loads` are external collaborators: the
HTTP exchange is modelled by passing the server's (already decoded) response
as an explicit argument, and `json.loads` is an explicit function parameter
of the operations that use it.  Machine-level details (event loop, sockets,
real time) are out of scope; everything else follows the Python source
line by line.
-/

namespace MCPClient

/-- Python/JSON values as they appear in the transport: `None`, booleans,
integers, strings, lists and string-keyed dicts (modelled as association
lists in insertion order, with unique keys as in a Python dict). -/
inductive Json where
  | null : Json
  | bool : Bool → Json
  | num : Int → Json
  | str : String → Json
  | arr : List Json → Json
  | obj : List (String × Json) → Json

/-- Python `d.get(key)` on a dict (first matching key); returns `none` both
when the key is absent and when the value is not a dict (the latter raises
`AttributeError` in Python — theorems below only apply this to dicts). -/
def Json.getField? : Json → String → Option Json
  | .obj fields, key => fields.lookup key
  | _, _ => none

/-- Python `d.get(key, default)` on a dict. -/
def jsonGetD (j : Json) (key : String) (dflt : Json) : Json :=
  (j.getField? key).getD dflt

mutual

/-- Python `repr` of a JSON-ish value (used by `str` on containers). -/
def pyRepr : Json → String
  | .null => "None"
  | .bool true => "True"
  | .bool false => "False"
  | .num n => toString n
  | .str s => "\x27" ++ s ++ "\x27"
  | .arr elems => "[" ++ String.intercalate ", " (pyReprList elems) ++ "]"
  | .obj fields => "\x7b" ++ String.intercalate ", " (pyReprFields fields) ++ "\x7d"

/-- Python `repr` of each element of a list. -/
def pyReprList : List Json → List String
  | [] => []
  | j :: js => pyRepr j :: pyReprList js

/-- Python `repr` of each `key: value` entry of a dict. -/
def pyReprFields : List (String × Json) → List String
  | [] => []
  | (k, v) :: fs => ("\x27" ++ k ++ "\x27: " ++ pyRepr v) :: pyReprFields fs

end

/-- Python `str()` of a JSON-ish value (as used by f-strings in
`transport.py` and by `str(result)` in `llm_api.py`). -/
def pyStr : Json → String
  | .str s => s
  | .null => "None"
  | .bool b => pyRepr (.bool b)
  | .num n => toString n
  | .arr elems => pyRepr (.arr elems)
  | .obj fields => pyRepr (.obj fields)

/-- Python `str()` where the value may be a missing dict entry
(`dict.get` returning `None`). -/
def pyStrOpt : Option Json → String
  | none => "None"
  | some j => pyStr j

/-- Errors raised by the transport layer.
`notConnected` is `RuntimeError("Not connected")` (transport.py line 97);
`httpError s` is `aiohttp.ClientResponseError` with HTTP status `s`, raised
by `response.raise_for_status()` (line 107); `protocolError msg` is
`MCPTransportError(msg)`; `attributeError` models Python `AttributeError`
(e.g. `.get` on a non-dict). -/
inductive TErr where
  | notConnected : TErr
  | httpError : Nat → TErr
  | protocolError : String → TErr
  | attributeError : TErr
deriving DecidableEq

/-- The spec's error taxonomy (spec.md section 7). -/
inductive SpecErr where
  | authError : SpecErr
  | connectionError : SpecErr
  | protocolError : SpecErr
  | notConnectedError : SpecErr
deriving DecidableEq

/-- Classification of a raised transport error into the spec taxonomy.  The
401-versus-other split is realised in `config_flow.py` lines 92 to 96, which
map an `aiohttp.ClientResponseError` with status 401 to `invalid_auth`
(AuthError) and any other caught response error to `cannot_connect`
(ConnectionError). -/
def specClass : TErr → SpecErr
  | .notConnected => .notConnectedError
  | .httpError s => if s = 401 then .authError else .connectionError
  | .protocolError _ => .protocolError
  | .attributeError => .protocolError

/-! ## SSE parser (`StreamableHTTPTransport._parse_sse`, transport.py lines 119-133)

The parser works on the decoded text lines of the response body.  The
Python string methods it uses are modelled over the string's character
list (Lean's builtin `String.trim`/`String.startsWith`/`String.drop` are
byte-position based and do not evaluate inside the kernel). -/

/-- Python `str.strip()` (for the ASCII whitespace present in HTTP
line endings). -/
def pyStrip (s : String) : String :=
  String.mk
    (((s.data.dropWhile Char.isWhitespace).reverse.dropWhile Char.isWhitespace).reverse)

/-- Python `s.startswith(pre)`. -/
def pyStartsWith (s pre : String) : Bool := pre.data.isPrefixOf s.data

/-- Python slicing `s[n:]`. -/
def pyDrop (s : String) (n : Nat) : String := String.mk (s.data.drop n)

/-- The loop of `_parse_sse`: iterate over the decoded lines of the response
body, keeping the accumulated `data_lines`.  Each line is `.strip()`ped; a
line starting with `"data: "` contributes its payload (the line minus the
6-character prefix); an empty line with a non-empty accumulator ends the
event and returns the newline-join together with the unconsumed remainder of
the stream; any other line is skipped.  At end of stream, a non-empty
accumulator is flushed, otherwise `MCPTransportError` is raised. -/
def sseLoop : List String → List String → Except TErr (String × List String)
  | [], dataLines =>
      if dataLines.isEmpty then
        .error (.protocolError "SSE stream ended without any data")
      else
        .ok (String.intercalate "\n" dataLines, [])
  | line :: rest, dataLines =>
      let decoded := pyStrip line
      if pyStartsWith decoded "data: " then
        sseLoop rest (dataLines ++ [pyDrop decoded 6])
      else if decoded = "" ∧ dataLines ≠ [] then
        .ok (String.intercalate "\n" dataLines, rest)
      else
        sseLoop rest dataLines

/-- Function `_parse_sse`: run the loop on the stream's lines with an empty
accumulator, then `json.loads` the joined payload.  `jsonLoads` stands for
Python's `json.loads`, an external collaborator.  The second component is
the part of the stream that was never consumed. -/
def parse_sse (jsonLoads : String → Json) (lines : List String) :
    Except TErr (Json × List String) :=
  match sseLoop lines [] with
  | .ok pr => .ok (jsonLoads pr.1, pr.2)
  | .error e => .error e

/-- The payloads of all `data:` lines of a stream, in order (what the loop
accumulates when no empty line intervenes). -/
def ssePayloads : List String → List String
  | [] => []
  | line :: rest =>
      let decoded := pyStrip line
      if pyStartsWith decoded "data: " then pyDrop decoded 6 :: ssePayloads rest
      else ssePayloads rest

/-- Predicate `noFlushBoundary hasData lines = true` holds iff scanning `lines` (having
already seen a data line iff `hasData`) never meets an empty line while at
least one data line has been seen — i.e. the loop never takes its
early-return branch inside `lines`. -/
def noFlushBoundary : Bool → List String → Bool
  | _, [] => true
  | hasData, line :: rest =>
      let decoded := pyStrip line
      if pyStartsWith decoded "data: " then noFlushBoundary true rest
      else if decoded = "" then
        (if hasData then false else noFlushBoundary hasData rest)
      else noFlushBoundary hasData rest

lemma ssePayloads_cons (line : String) (rest : List String) :
    ssePayloads (line :: rest) =
      if pyStartsWith (pyStrip line) "data: " then
        pyDrop (pyStrip line) 6 :: ssePayloads rest
      else ssePayloads rest := rfl

lemma empty_not_data : pyStartsWith "" "data: " = false := rfl

lemma append_singleton_nonempty (acc : List String) (s : String) :
    (!(acc ++ [s]).isEmpty) = true := by cases acc <;> rfl

lemma sseLoop_cons_data (line : String) (rest acc : List String)
    (hd : pyStartsWith (pyStrip line) "data: " = true) :
    sseLoop (line :: rest) acc = sseLoop rest (acc ++ [pyDrop (pyStrip line) 6]) := by
  simp [sseLoop, hd]

lemma sseLoop_cons_boundary (line : String) (rest acc : List String)
    (_hd : pyStartsWith (pyStrip line) "data: " = false) (he : pyStrip line = "")
    (ha : acc ≠ []) :
    sseLoop (line :: rest) acc = .ok (String.intercalate "\n" acc, rest) := by
  simp [sseLoop, he, empty_not_data, ha]

lemma sseLoop_cons_skip (line : String) (rest acc : List String)
    (hd : pyStartsWith (pyStrip line) "data: " = false)
    (h : ¬(pyStrip line = "" ∧ acc ≠ [])) :
    sseLoop (line :: rest) acc = sseLoop rest acc := by
  simp [sseLoop, hd, h]

lemma noFlushBoundary_cons_data (hasData : Bool) (line : String) (rest : List String)
    (hd : pyStartsWith (pyStrip line) "data: " = true) :
    noFlushBoundary hasData (line :: rest) = noFlushBoundary true rest := by
  simp [noFlushBoundary, hd]

lemma noFlushBoundary_cons_empty (hasData : Bool) (line : String) (rest : List String)
    (_hd : pyStartsWith (pyStrip line) "data: " = false) (he : pyStrip line = "") :
    noFlushBoundary hasData (line :: rest) =
      (if hasData then false else noFlushBoundary hasData rest) := by
  simp [noFlushBoundary, he, empty_not_data]

lemma noFlushBoundary_cons_skip (hasData : Bool) (line : String) (rest : List String)
    (hd : pyStartsWith (pyStrip line) "data: " = false) (he : pyStrip line ≠ "") :
    noFlushBoundary hasData (line :: rest) = noFlushBoundary hasData rest := by
  simp [noFlushBoundary, hd, he]

lemma sseLoop_no_data : ∀ (lines : List String), ssePayloads lines = [] →
    sseLoop lines [] = .error (.protocolError "SSE stream ended without any data")
  | [], _ => by simp [sseLoop]
  | line :: rest, h => by
      rw [ssePayloads_cons] at h
      by_cases hd : pyStartsWith (pyStrip line) "data: "
      · simp [hd] at h
      · rw [if_neg hd] at h
        rw [sseLoop_cons_skip line rest [] (by simpa using hd) (by simp)]
        exact sseLoop_no_data rest h

lemma sseLoop_flush : ∀ (lines : List String) (acc : List String),
    noFlushBoundary (!acc.isEmpty) lines = true →
    acc ++ ssePayloads lines ≠ [] →
    sseLoop lines acc = .ok (String.intercalate "\n" (acc ++ ssePayloads lines), [])
  | [], acc, _, hne => by
      have hacc : acc ≠ [] := by simpa [ssePayloads] using hne
      simp [sseLoop, ssePayloads, List.isEmpty_iff, hacc]
  | line :: rest, acc, hb, hne => by
      by_cases hd : pyStartsWith (pyStrip line) "data: "
      · rw [noFlushBoundary_cons_data _ _ _ (by simpa using hd)] at hb
        have hb' : noFlushBoundary (!(acc ++ [pyDrop (pyStrip line) 6]).isEmpty) rest = true := by
          rw [append_singleton_nonempty]; exact hb
        have ih := sseLoop_flush rest (acc ++ [pyDrop (pyStrip line) 6]) hb' (by simp)
        rw [sseLoop_cons_data _ _ _ (by simpa using hd), ih,
          ssePayloads_cons, if_pos hd]
        simp
      · by_cases he : pyStrip line = ""
        · rw [noFlushBoundary_cons_empty _ _ _ (by simpa using hd) he] at hb
          have hacc : acc = [] := by
            by_contra hacc
            have hq : (!acc.isEmpty) = true := by
              simpa [List.isEmpty_iff] using hacc
            rw [hq, if_pos rfl] at hb
            exact Bool.false_ne_true hb
          subst hacc
          rw [if_neg (by simp)] at hb
          have hne' : ([] : List String) ++ ssePayloads rest ≠ [] := by
            simpa [ssePayloads_cons, hd] using hne
          have ih := sseLoop_flush rest [] hb hne'
          rw [sseLoop_cons_skip _ _ _ (by simpa using hd) (by simp), ih,
            ssePayloads_cons, if_neg hd]
        · rw [noFlushBoundary_cons_skip _ _ _ (by simpa using hd) he] at hb
          have hne' : acc ++ ssePayloads rest ≠ [] := by
            simpa [ssePayloads_cons, hd] using hne
          have ih := sseLoop_flush rest acc hb hne'
          rw [sseLoop_cons_skip _ _ _ (by simpa using hd) (by simp [he]), ih,
            ssePayloads_cons, if_neg hd]

lemma sseLoop_boundary : ∀ (pre : List String) (e : String) (rest acc : List String),
    noFlushBoundary (!acc.isEmpty) pre = true →
    pyStrip e = "" →
    acc ++ ssePayloads pre ≠ [] →
    sseLoop (pre ++ e :: rest) acc =
      .ok (String.intercalate "\n" (acc ++ ssePayloads pre), rest)
  | [], e, rest, acc, _, he, hne => by
      have hacc : acc ≠ [] := by simpa [ssePayloads] using hne
      have hd : pyStartsWith (pyStrip e) "data: " = false := by rw [he]; exact empty_not_data
      rw [List.nil_append,
        sseLoop_cons_boundary e rest acc hd he hacc]
      simp [ssePayloads]
  | line :: pre, e, rest, acc, hb, he, hne => by
      by_cases hd : pyStartsWith (pyStrip line) "data: "
      · rw [noFlushBoundary_cons_data _ _ _ (by simpa using hd)] at hb
        have hb' : noFlushBoundary (!(acc ++ [pyDrop (pyStrip line) 6]).isEmpty) pre = true := by
          rw [append_singleton_nonempty]; exact hb
        have ih := sseLoop_boundary pre e rest (acc ++ [pyDrop (pyStrip line) 6]) hb' he (by simp)
        rw [List.cons_append, sseLoop_cons_data _ _ _ (by simpa using hd), ih,
          ssePayloads_cons, if_pos hd]
        simp
      · by_cases hemp : pyStrip line = ""
        · rw [noFlushBoundary_cons_empty _ _ _ (by simpa using hd) hemp] at hb
          have hacc : acc = [] := by
            by_contra hacc
            have hq : (!acc.isEmpty) = true := by
              simpa [List.isEmpty_iff] using hacc
            rw [hq, if_pos rfl] at hb
            exact Bool.false_ne_true hb
          subst hacc
          rw [if_neg (by simp)] at hb
          have hne' : ([] : List String) ++ ssePayloads pre ≠ [] := by
            simpa [ssePayloads_cons, hd] using hne
          have ih := sseLoop_boundary pre e rest [] hb he hne'
          rw [List.cons_append, sseLoop_cons_skip _ _ _ (by simpa using hd) (by simp),
            ih, ssePayloads_cons, if_neg hd]
        · rw [noFlushBoundary_cons_skip _ _ _ (by simpa using hd) hemp] at hb
          have hne' : acc ++ ssePayloads pre ≠ [] := by
            simpa [ssePayloads_cons, hd] using hne
          have ih := sseLoop_boundary pre e rest acc hb he hne'
          rw [List.cons_append, sseLoop_cons_skip _ _ _ (by simpa using hd) (by simp [hemp]),
            ih, ssePayloads_cons, if_neg hd]

/-! ## Transport state machine (`StreamableHTTPTransport`, transport.py lines 18-167)

The transport's mutable attributes are modelled by the `Transport` structure;
each `async` method becomes a pure function from the current state and the
server's HTTP response(s) to a result together with the state left behind
(the state is returned even when the method raises, since Python leaves the
attributes as they were at the raise point).  `aiohttp.ClientSession.post`
is the external collaborator: the response a POST would receive is an
explicit argument. -/

/-- Decoded body of an HTTP response.  The source dispatches on the
`Content-Type` response header (transport.py lines 112-117): a
`text/event-stream` body is handed to `_parse_sse` line by line, anything
else is decoded by `response.json()`.  We model the two decode paths by the
two constructors: `json j` is a body whose `response.json()` is `j`, and
`sse lines` is an event-stream body split into its lines. -/
inductive ResponseBody where
  | json : Json → ResponseBody
  | sse : List String → ResponseBody

/-- An HTTP response as the transport observes it: status code, response
headers (`dict(response.headers)`) and decoded body. -/
structure HttpResponse where
  status : Nat
  headers : List (String × String)
  body : ResponseBody

/-- The request actually issued by one `self._session.post(...)` call:
the headers from `_build_headers()`, the `aiohttp.ClientTimeout(total=...)`
value, and the JSON-RPC payload. -/
structure IssuedRequest where
  headers : List (String × String)
  timeout : Nat
  payload : Json

/-- The state of one `StreamableHTTPTransport` instance.
`sessionActive` is `self._session is not None`; `ownedClientOpen` records
whether an internally-created `aiohttp.ClientSession` currently exists and
has not been closed; `counter` is the next value `next(self._id_counter)`
will yield (`itertools.count(1)`). -/
structure Transport where
  url : String
  authToken : Option String
  timeoutConnection : Nat
  timeoutExecution : Nat
  hasExternalSession : Bool
  sessionActive : Bool
  ownedClientOpen : Bool
  sessionId : Option String
  counter : Nat

/-- Python `url.rstrip("/")`. -/
def rstripSlash (s : String) : String := s.dropRightWhile (fun c => c = '/')

/-- Constructor `StreamableHTTPTransport.__init__` (transport.py lines 21-37).  The
Python defaults are `timeout_connection=30`, `timeout_execution=60`,
`session=None`; callers pass the values explicitly here. -/
def mkTransport (url : String) (authToken : Option String)
    (timeoutConnection timeoutExecution : Nat) (hasExternalSession : Bool) :
    Transport :=
  { url := rstripSlash url
    authToken := authToken
    timeoutConnection := timeoutConnection
    timeoutExecution := timeoutExecution
    hasExternalSession := hasExternalSession
    sessionActive := false
    ownedClientOpen := false
    sessionId := none
    counter := 1 }

/-- The `Authorization` entry of `_build_headers` (transport.py lines
82-83): present exactly when `self._auth_token` is truthy, i.e. a non-empty
string. -/
def authHeader : Option String → List (String × String)
  | some tok => if tok = "" then [] else [("Authorization", "Bearer " ++ tok)]
  | none => []

/-- The `Mcp-Session-Id` entry of `_build_headers` (transport.py lines
84-85): present exactly when `self._session_id` is truthy. -/
def sessionHeader : Option String → List (String × String)
  | some sid => if sid = "" then [] else [("Mcp-Session-Id", sid)]
  | none => []

/-- Method `_build_headers` (transport.py lines 76-86). -/
def buildHeaders (t : Transport) : List (String × String) :=
  [("Content-Type", "application/json"),
   ("Accept", "application/json, text/event-stream")]
    ++ authHeader t.authToken ++ sessionHeader t.sessionId

/-- Assignment `total = timeout_override or self._timeout_connection` (transport.py
line 99).  Python `or` takes the right operand when the left is falsy, so
both `None` and `0` fall back to the connection timeout. -/
def requestTimeout (t : Transport) : Option Nat → Nat
  | some n => if n = 0 then t.timeoutConnection else n
  | none => t.timeoutConnection

/-- Method `_raw_request` (transport.py lines 88-117).  Returns the issued POST (if
one was issued) and either the decoded result with the response headers, or
the raised error.  `response.raise_for_status()` raises
`aiohttp.ClientResponseError` exactly when the status is at least 400
(aiohttp's `ClientResponse.ok` is `400 > status`). -/
def rawRequest (jsonLoads : String → Json) (t : Transport) (payload : Json)
    (expectResponse : Bool) (timeoutOverride : Option Nat)
    (resp : HttpResponse) :
    Option IssuedRequest × Except TErr (Json × List (String × String)) :=
  if !t.sessionActive then
    (none, .error .notConnected)
  else
    let req : IssuedRequest :=
      { headers := buildHeaders t
        timeout := requestTimeout t timeoutOverride
        payload := payload }
    if 400 ≤ resp.status then
      (some req, .error (.httpError resp.status))
    else if !expectResponse then
      (some req, .ok (Json.obj [], resp.headers))
    else
      match resp.body with
      | .json j => (some req, .ok (j, resp.headers))
      | .sse lines =>
          match sseLoop lines [] with
          | .ok pr => (some req, .ok (jsonLoads pr.1, resp.headers))
          | .error e => (some req, .error e)

/-- The `initialize` request payload (transport.py lines 44-58), with the id
drawn from the counter. -/
def initializePayload (idVal : Nat) : Json :=
  .obj [("jsonrpc", .str "2.0"),
        ("method", .str "initialize"),
        ("params", .obj [("protocolVersion", .str "2024-11-05"),
                         ("capabilities", .obj []),
                         ("clientInfo", .obj [("name", .str "ha-mcp-client"),
                                              ("version", .str "1.0.0")])]),
        ("id", .num (idVal : Int))]

/-- The `notifications/initialized` notification payload (transport.py
line 65); notifications carry no id. -/
def initializedNotification : Json :=
  .obj [("jsonrpc", .str "2.0"), ("method", .str "notifications/initialized")]

/-- Method `connect` (transport.py lines 39-67): assign `self._session` (the
external client if supplied, else a freshly created owned
`aiohttp.ClientSession`), send `initialize` (consuming one id), record the
`Mcp-Session-Id` response header, then send the `initialized` notification.
`resp1`/`resp2` are the responses the two POSTs receive.  Returns the
issued requests, the outcome, and the state left behind — note that no
branch closes the owned client before an error propagates. -/
def connect (jsonLoads : String → Json) (t : Transport)
    (resp1 resp2 : HttpResponse) :
    List IssuedRequest × Except TErr Unit × Transport :=
  let t1 : Transport :=
    { t with sessionActive := true, ownedClientOpen := !t.hasExternalSession }
  let payload := initializePayload t1.counter
  let t2 : Transport := { t1 with counter := t1.counter + 1 }
  match rawRequest jsonLoads t2 payload true none resp1 with
  | (req1, .error e) => (req1.toList, .error e, t2)
  | (req1, .ok (_result, hdrs)) =>
      let t3 : Transport := { t2 with sessionId := hdrs.lookup "Mcp-Session-Id" }
      match rawRequest jsonLoads t3 initializedNotification false none resp2 with
      | (req2, .error e) => (req1.toList ++ req2.toList, .error e, t3)
      | (req2, .ok _) => (req1.toList ++ req2.toList, .ok (), t3)

/-- Method `disconnect` (transport.py lines 69-74): close the session when it is
set, not already closed and not externally supplied; then clear
`self._session` and `self._session_id`. -/
def disconnect (t : Transport) : Transport :=
  { t with
    ownedClientOpen :=
      if t.sessionActive ∧ t.ownedClientOpen ∧ !t.hasExternalSession then false
      else t.ownedClientOpen
    sessionActive := false
    sessionId := none }

/-- The `error`-envelope check of `_request` (transport.py lines 135-147):
`"error" in result` raises `MCPTransportError` with the f-string
`"JSON-RPC error {code}: {message}"` built from `err.get("code")` and
`err.get("message")`; otherwise the envelope is returned unchanged.
(`err.get` on a non-dict `error` value raises `AttributeError` in Python.) -/
def requestUnwrap (result : Json) : Except TErr Json :=
  match result.getField? "error" with
  | some (Json.obj errFields) =>
      .error (.protocolError
        ("JSON-RPC error " ++ pyStrOpt (errFields.lookup "code") ++ ": "
          ++ pyStrOpt (errFields.lookup "message")))
  | some _ => .error .attributeError
  | none => .ok result

/-- The `tools/list` payload (transport.py line 152). -/
def listToolsPayload (idVal : Nat) : Json :=
  .obj [("jsonrpc", .str "2.0"), ("method", .str "tools/list"),
        ("id", .num (idVal : Int))]

/-- Method `list_tools` (transport.py lines 149-154): build the payload (consuming
one id), go through `_request`, then unwrap
`result.get("result", {}).get("tools", [])`. -/
def list_tools (jsonLoads : String → Json) (t : Transport)
    (resp : HttpResponse) :
    Option IssuedRequest × Except TErr Json × Transport :=
  let payload := listToolsPayload t.counter
  let t2 : Transport := { t with counter := t.counter + 1 }
  match rawRequest jsonLoads t2 payload true none resp with
  | (req, .error e) => (req, .error e, t2)
  | (req, .ok (body, _hdrs)) =>
      match requestUnwrap body with
      | .error e => (req, .error e, t2)
      | .ok env =>
          (req, .ok (jsonGetD (jsonGetD env "result" (.obj [])) "tools" (.arr [])), t2)

/-- The `tools/call` payload (transport.py lines 158-164). -/
def callToolPayload (name : String) (args : Json) (idVal : Nat) : Json :=
  .obj [("jsonrpc", .str "2.0"), ("method", .str "tools/call"),
        ("params", .obj [("name", .str name), ("arguments", args)]),
        ("id", .num (idVal : Int))]

/-- Method `call_tool` (transport.py lines 156-167): like `list_tools` but with
`timeout_override=self._timeout_execution` and unwrapping
`result.get("result", {})`. -/
def call_tool (jsonLoads : String → Json) (t : Transport) (name : String)
    (args : Json) (resp : HttpResponse) :
    Option IssuedRequest × Except TErr Json × Transport :=
  let payload := callToolPayload name args t.counter
  let t2 : Transport := { t with counter := t.counter + 1 }
  match rawRequest jsonLoads t2 payload true (some t.timeoutExecution) resp with
  | (req, .error e) => (req, .error e, t2)
  | (req, .ok (body, _hdrs)) =>
      match requestUnwrap body with
      | .error e => (req, .error e, t2)
      | .ok env => (req, .ok (jsonGetD env "result" (.obj [])), t2)

/-! ## Integration constants (`const.py`) and the diagnostics redaction hook
(`security.py`) and result extraction (`llm_api.py`) -/

/-- Constant `CONF_AUTH_TOKEN` (const.py line 6). -/
def CONF_AUTH_TOKEN : String := "auth_token"

/-- Constant `DEFAULT_TIMEOUT_CONNECTION` (const.py line 13), the integration-level
connection-timeout default used by `config_flow.py` and `coordinator.py`. -/
def DEFAULT_TIMEOUT_CONNECTION : Nat := 10

/-- Constant `DEFAULT_TIMEOUT_EXECUTION` (const.py line 14). -/
def DEFAULT_TIMEOUT_EXECUTION : Nat := 60

/-- Function `filter_tool_results` (security.py lines 15-20): copy the mapping
(`dict(data)`) and overwrite the `auth_token` entry, when present, with the
redaction marker.  The copy is modelled by returning a new association
list; the argument itself is untouched (the Python code never writes to
`data`). -/
def filter_tool_results (data : List (String × Json)) : List (String × Json) :=
  if (data.lookup CONF_AUTH_TOKEN).isSome then
    data.map (fun kv =>
      if kv.1 = CONF_AUTH_TOKEN then (kv.1, Json.str "**REDACTED**") else kv)
  else
    data

/-- Errors `MCPTool._extract_result` can raise: `KeyError` from
`part["text"]` on a text-typed part lacking a `text` entry, `TypeError`
from `"\n".join` on non-string values (or from iterating a non-list
`content`). -/
inductive PyErr where
  | keyError : PyErr
  | typeError : PyErr
deriving DecidableEq

/-- Test `part.get("type") == "text"` (llm_api.py line 104). -/
def textTyped (part : Json) : Bool :=
  match part.getField? "type" with
  | some (.str s) => s = "text"
  | _ => false

/-- The list comprehension of `_extract_result` (llm_api.py lines 103-105):
`[part["text"] for part in content_parts if part.get("type") == "text"]`.
`part["text"]` raises `KeyError` when absent. -/
def collectTextParts : List Json → Except PyErr (List Json)
  | [] => .ok []
  | part :: parts =>
      if textTyped part then
        match part.getField? "text" with
        | some v =>
            match collectTextParts parts with
            | .ok vs => .ok (v :: vs)
            | .error e => .error e
        | none => .error .keyError
      else collectTextParts parts

/-- Python `"\n".join` succeeds only on a list of strings. -/
def allStrings : List Json → Option (List String)
  | [] => some []
  | .str s :: vs => (allStrings vs).map (fun ss => s :: ss)
  | _ :: _ => none

/-- Method `MCPTool._extract_result` (llm_api.py lines 99-106): read
`result.get("content", [])`, collect the `text` of every part whose type is
`"text"`, and return `{"result": joined}` — falling back to
`{"result": str(result)}` when no text part was found. -/
def extract_result (result : Json) : Except PyErr Json :=
  match (result.getField? "content").getD (Json.arr []) with
  | .arr parts =>
      match collectTextParts parts with
      | .error e => .error e
      | .ok [] => .ok (Json.obj [("result", Json.str (pyStr result))])
      | .ok vs =>
          match allStrings vs with
          | some ss =>
              .ok (Json.obj [("result", Json.str (String.intercalate "\n" ss))])
          | none => .error .typeError
  | _ => .error .typeError

/-! ## Helper lemmas about the transport operations -/

lemma rawRequest_notConnected (jsonLoads : String → Json) (t : Transport)
    (payload : Json) (er : Bool) (o : Option Nat) (resp : HttpResponse)
    (h : t.sessionActive = false) :
    rawRequest jsonLoads t payload er o resp = (none, .error .notConnected) := by
  simp [rawRequest, h]

lemma rawRequest_httpError (jsonLoads : String → Json) (t : Transport)
    (payload : Json) (er : Bool) (o : Option Nat) (resp : HttpResponse)
    (h : t.sessionActive = true) (hs : 400 ≤ resp.status) :
    rawRequest jsonLoads t payload er o resp =
      (some { headers := buildHeaders t, timeout := requestTimeout t o,
              payload := payload },
       .error (.httpError resp.status)) := by
  simp [rawRequest, h, hs]

lemma rawRequest_okJson (jsonLoads : String → Json) (t : Transport)
    (payload : Json) (o : Option Nat) (resp : HttpResponse) (j : Json)
    (h : t.sessionActive = true) (hs : resp.status < 400)
    (hb : resp.body = .json j) :
    rawRequest jsonLoads t payload true o resp =
      (some { headers := buildHeaders t, timeout := requestTimeout t o,
              payload := payload },
       .ok (j, resp.headers)) := by
  have hs' : ¬ 400 ≤ resp.status := by omega
  simp [rawRequest, h, hs', hb]

lemma rawRequest_fst (jsonLoads : String → Json) (t : Transport)
    (payload : Json) (er : Bool) (o : Option Nat) (resp : HttpResponse)
    (h : t.sessionActive = true) :
    (rawRequest jsonLoads t payload er o resp).1 =
      some { headers := buildHeaders t, timeout := requestTimeout t o,
             payload := payload } := by
  simp only [rawRequest, h, Bool.not_true, Bool.false_eq_true, ite_false]
  split
  · rfl
  · split
    · rfl
    · split
      · rfl
      · split <;> rfl

lemma list_tools_notConnected (jsonLoads : String → Json) (t : Transport)
    (resp : HttpResponse) (h : t.sessionActive = false) :
    (list_tools jsonLoads t resp).2.1 = .error .notConnected := by
  simp only [list_tools]
  rw [rawRequest_notConnected jsonLoads { t with counter := t.counter + 1 }
    (listToolsPayload t.counter) true none resp h]

lemma call_tool_notConnected (jsonLoads : String → Json) (t : Transport)
    (name : String) (args : Json) (resp : HttpResponse)
    (h : t.sessionActive = false) :
    (call_tool jsonLoads t name args resp).2.1 = .error .notConnected := by
  simp only [call_tool]
  rw [rawRequest_notConnected jsonLoads { t with counter := t.counter + 1 }
    (callToolPayload name args t.counter) true (some t.timeoutExecution) resp h]

lemma disconnect_sessionActive (t : Transport) :
    (disconnect t).sessionActive = false := rfl

lemma list_tools_result (jsonLoads : String → Json) (t : Transport)
    (resp : HttpResponse) (body : Json) (h : t.sessionActive = true)
    (hs : resp.status < 400) (hb : resp.body = .json body) :
    (list_tools jsonLoads t resp).2.1 =
      match requestUnwrap body with
      | .error e => .error e
      | .ok env =>
          .ok (jsonGetD (jsonGetD env "result" (.obj [])) "tools" (.arr [])) := by
  simp only [list_tools]
  rw [rawRequest_okJson jsonLoads { t with counter := t.counter + 1 }
    (listToolsPayload t.counter) none resp body h hs hb]
  cases hru : requestUnwrap body <;> simp [hru]

lemma call_tool_result (jsonLoads : String → Json) (t : Transport)
    (name : String) (args : Json) (resp : HttpResponse) (body : Json)
    (h : t.sessionActive = true) (hs : resp.status < 400)
    (hb : resp.body = .json body) :
    (call_tool jsonLoads t name args resp).2.1 =
      match requestUnwrap body with
      | .error e => .error e
      | .ok env => .ok (jsonGetD env "result" (.obj [])) := by
  simp only [call_tool]
  rw [rawRequest_okJson jsonLoads { t with counter := t.counter + 1 }
    (callToolPayload name args t.counter) (some t.timeoutExecution) resp body h hs hb]
  cases hru : requestUnwrap body <;> simp [hru]

lemma list_tools_fst (jsonLoads : String → Json) (t : Transport)
    (resp : HttpResponse) (h : t.sessionActive = true) :
    (list_tools jsonLoads t resp).1 =
      some { headers := buildHeaders t, timeout := t.timeoutConnection,
             payload := listToolsPayload t.counter } := by
  simp only [list_tools]
  have hf := rawRequest_fst jsonLoads { t with counter := t.counter + 1 }
    (listToolsPayload t.counter) true none resp h
  rcases hr : rawRequest jsonLoads { t with counter := t.counter + 1 }
      (listToolsPayload t.counter) true none resp with ⟨req, res⟩
  rw [hr] at hf
  cases res with
  | error e => simpa using hf
  | ok pr =>
      rcases pr with ⟨body, hdrs⟩
      cases hru : requestUnwrap body <;> simpa [hru] using hf

lemma call_tool_fst (jsonLoads : String → Json) (t : Transport)
    (name : String) (args : Json) (resp : HttpResponse)
    (h : t.sessionActive = true) :
    (call_tool jsonLoads t name args resp).1 =
      some { headers := buildHeaders t,
             timeout := requestTimeout t (some t.timeoutExecution),
             payload := callToolPayload name args t.counter } := by
  simp only [call_tool]
  have hf := rawRequest_fst jsonLoads { t with counter := t.counter + 1 }
    (callToolPayload name args t.counter) true (some t.timeoutExecution) resp h
  rcases hr : rawRequest jsonLoads { t with counter := t.counter + 1 }
      (callToolPayload name args t.counter) true (some t.timeoutExecution) resp with ⟨req, res⟩
  rw [hr] at hf
  cases res with
  | error e => simpa using hf
  | ok pr =>
      rcases pr with ⟨body, hdrs⟩
      cases hru : requestUnwrap body <;> simpa [hru] using hf

lemma connect_sessionActive (jsonLoads : String → Json) (t : Transport)
    (resp1 resp2 : HttpResponse) :
    ((connect jsonLoads t resp1 resp2).2.2).sessionActive = true := by
  simp only [connect]
  split
  · rfl
  · split <;> rfl

lemma connect_counter (jsonLoads : String → Json) (t : Transport)
    (resp1 resp2 : HttpResponse) :
    ((connect jsonLoads t resp1 resp2).2.2).counter = t.counter + 1 := by
  simp only [connect]
  split
  · rfl
  · split <;> rfl

lemma connect_sessionId (jsonLoads : String → Json) (t : Transport)
    (resp1 resp2 : HttpResponse) (j : Json) (hs : resp1.status < 400)
    (hb : resp1.body = .json j) :
    ((connect jsonLoads t resp1 resp2).2.2).sessionId =
      resp1.headers.lookup "Mcp-Session-Id" := by
  simp only [connect]
  rw [rawRequest_okJson jsonLoads _ _ _ _ j rfl hs hb]
  split
  · rename_i heq
    simp at heq
  · rename_i req1 _result hdrs heq
    simp only [Prod.mk.injEq, Except.ok.injEq] at heq
    obtain ⟨-, -, hh⟩ := heq
    subst hh
    split <;> rfl

/-! ## Concrete fixtures used by counterexamples and witnesses -/

/-- A stand-in for `json.loads` in concrete evaluations. -/
def jsonLoadsStub : String → Json := fun _ => Json.null

/-- A transport fresh out of `__init__`, owning its HTTP client (no
external session supplied), with the integration's default timeouts. -/
def tFresh : Transport := mkTransport "http://gw/mcp" none 10 60 false

/-- The same transport in the Ready state (after a successful connect that
yielded no session id). -/
def tReady : Transport :=
  { tFresh with sessionActive := true, ownedClientOpen := true }

/-- Transport `tReady` with an execution timeout of 0. -/
def tExecZero : Transport := { tReady with timeoutExecution := 0 }

/-- A plain-JSON response with HTTP status 500. -/
def resp500 : HttpResponse := { status := 500, headers := [], body := .json Json.null }

/-- A plain-JSON `tools/list` success envelope carried on HTTP status 304
(Not Modified) — a non-2xx status below 400. -/
def resp304 : HttpResponse :=
  { status := 304
    headers := []
    body := .json (Json.obj [("jsonrpc", Json.str "2.0"),
                             ("result", Json.obj [("tools", Json.arr [])])]) }

/-- The spec's example JSON-RPC error envelope. -/
def errEnvelope : Json :=
  Json.obj [("jsonrpc", Json.str "2.0"),
            ("error", Json.obj [("code", Json.num (-32601)),
                                ("message", Json.str "not found")])]

/-- A 200 response carrying `errEnvelope`. -/
def respErr : HttpResponse :=
  { status := 200, headers := [], body := .json errEnvelope }

/-- An error-free `tools/list` success envelope. -/
def okEnvelope : Json :=
  Json.obj [("jsonrpc", Json.str "2.0"),
            ("result", Json.obj [("tools", Json.arr [])])]

/-- A 200 response carrying `okEnvelope`. -/
def respOk : HttpResponse :=
  { status := 200, headers := [], body := .json okEnvelope }

/-- The spec's example Tool Result with two text parts. -/
def exampleToolResult : Json :=
  Json.obj [("content", Json.arr
    [Json.obj [("type", Json.str "text"), ("text", Json.str "A")],
     Json.obj [("type", Json.str "text"), ("text", Json.str "B")]])]

/-! ## Helper lemmas for result extraction and redaction -/

/-- The texts of the parts whose type is `"text"`, in content order (the
value the comprehension collects when every such part carries a string
`text`). -/
def specTexts : List Json → List String
  | [] => []
  | part :: parts =>
      if textTyped part then
        (match part.getField? "text" with
         | some (.str s) => s :: specTexts parts
         | _ => specTexts parts)
      else specTexts parts

lemma collectTextParts_spec : ∀ (parts : List Json),
    (∀ p ∈ parts, textTyped p = true → ∃ s, p.getField? "text" = some (Json.str s)) →
    collectTextParts parts = .ok ((specTexts parts).map Json.str)
  | [], _ => rfl
  | part :: parts, h => by
      have ih := collectTextParts_spec parts (fun p hp => h p (List.mem_cons_of_mem _ hp))
      by_cases ht : textTyped part
      · obtain ⟨s, hs⟩ := h part (List.mem_cons_self _ _) ht
        simp [collectTextParts, specTexts, ht, hs, ih]
      · simp [collectTextParts, specTexts, ht, ih]

lemma allStrings_map : ∀ (ss : List String), allStrings (ss.map Json.str) = some ss
  | [] => rfl
  | s :: ss => by simp [allStrings, allStrings_map ss]

lemma filter_lookup_other : ∀ (data : List (String × Json)) (k : String),
    k ≠ CONF_AUTH_TOKEN →
    (data.map (fun kv =>
      if kv.1 = CONF_AUTH_TOKEN then (kv.1, Json.str "**REDACTED**") else kv)).lookup k
      = data.lookup k
  | [], _, _ => rfl
  | (k1, v1) :: rest, k, hk => by
      simp only [List.map_cons]
      by_cases h1 : k1 = CONF_AUTH_TOKEN
      · rw [if_pos h1]
        have hne : (k == k1) = false := by
          simp only [beq_eq_false_iff_ne, ne_eq]
          intro hkk; exact hk (hkk.trans h1)
        simp [List.lookup, hne, filter_lookup_other rest k hk]
      · rw [if_neg h1]
        by_cases hkk : k = k1
        · simp [List.lookup, hkk]
        · have hne : (k == k1) = false := by simpa using hkk
          simp [List.lookup, hne, filter_lookup_other rest k hk]

lemma filter_lookup_token : ∀ (data : List (String × Json)),
    (data.lookup CONF_AUTH_TOKEN).isSome = true →
    (data.map (fun kv =>
      if kv.1 = CONF_AUTH_TOKEN then (kv.1, Json.str "**REDACTED**") else kv)).lookup
        CONF_AUTH_TOKEN = some (Json.str "**REDACTED**")
  | [], h => by simp [List.lookup] at h
  | (k1, v1) :: rest, h => by
      simp only [List.map_cons]
      by_cases h1 : k1 = CONF_AUTH_TOKEN
      · rw [if_pos h1]
        have he : (CONF_AUTH_TOKEN == k1) = true := by simp [h1]
        simp [List.lookup, he]
      · rw [if_neg h1]
        have hne : (CONF_AUTH_TOKEN == k1) = false := by
          simp only [beq_eq_false_iff_ne, ne_eq]
          intro hkk; exact h1 hkk.symm
        simp only [List.lookup, hne] at h
        simp [List.lookup, hne, filter_lookup_token rest h]

lemma filter_keys : ∀ (data : List (String × Json)),
    (data.map (fun kv =>
      if kv.1 = CONF_AUTH_TOKEN then (kv.1, Json.str "**REDACTED**") else kv)).map
        Prod.fst = data.map Prod.fst
  | [] => rfl
  | (k1, v1) :: rest => by
      by_cases h1 : k1 = CONF_AUTH_TOKEN <;> simp [h1, filter_keys rest]

/-! ## Operation traces (for the request-id counter, transport.py line 37) -/

/-- One public transport operation, together with the response(s) the
server gives to the POST(s) it issues. -/
inductive Op where
  | opConnect : HttpResponse → HttpResponse → Op
  | opDisconnect : Op
  | opListTools : HttpResponse → Op
  | opCallTool : String → Json → HttpResponse → Op

/-- The state-transition of one operation. -/
def stepTransport (jsonLoads : String → Json) (t : Transport) : Op → Transport
  | .opConnect r1 r2 => (connect jsonLoads t r1 r2).2.2
  | .opDisconnect => disconnect t
  | .opListTools r => (list_tools jsonLoads t r).2.2
  | .opCallTool name args r => (call_tool jsonLoads t name args r).2.2

/-- How many values `next(self._id_counter)` yields during one operation:
`connect`, `list_tools` and `call_tool` each build exactly one payload with
an id (the `initialized` notification carries none), `disconnect` none.
The id is drawn while the payload is built, before any network failure. -/
def opIdCount : Op → Nat
  | .opDisconnect => 0
  | _ => 1

/-- The JSON-RPC ids an operation stamps into payloads, given the state it
starts from. -/
def opIssuedIds (t : Transport) : Op → List Nat
  | .opDisconnect => []
  | _ => [t.counter]

/-- Run a sequence of operations, collecting every issued id. -/
def runTrace (jsonLoads : String → Json) (t : Transport) :
    List Op → List Nat × Transport
  | [] => ([], t)
  | op :: ops =>
      let ids := opIssuedIds t op
      let t2 := stepTransport jsonLoads t op
      let rest := runTrace jsonLoads t2 ops
      (ids ++ rest.1, rest.2)

/-- Total number of ids a trace draws. -/
def idOpsCount : List Op → Nat
  | [] => 0
  | op :: ops => opIdCount op + idOpsCount ops

/-- Here `idRange s n = [s, s+1, ..., s+n-1]`. -/
def idRange : Nat → Nat → List Nat
  | _, 0 => []
  | s, n + 1 => s :: idRange (s + 1) n

lemma step_counter (jsonLoads : String → Json) (t : Transport) (op : Op) :
    (stepTransport jsonLoads t op).counter = t.counter + opIdCount op := by
  cases op with
  | opConnect r1 r2 =>
      simp only [stepTransport, opIdCount]
      exact connect_counter jsonLoads t r1 r2
  | opDisconnect => rfl
  | opListTools r =>
      simp only [stepTransport, list_tools, opIdCount]
      split
      · rfl
      · split <;> rfl
  | opCallTool name args r =>
      simp only [stepTransport, call_tool, opIdCount]
      split
      · rfl
      · split <;> rfl

lemma runTrace_ids (jsonLoads : String → Json) : ∀ (ops : List Op) (t : Transport),
    (runTrace jsonLoads t ops).1 = idRange t.counter (idOpsCount ops)
  | [], t => rfl
  | op :: ops, t => by
      have ih := runTrace_ids jsonLoads ops (stepTransport jsonLoads t op)
      have hc := step_counter jsonLoads t op
      cases op with
      | opDisconnect =>
          simp only [runTrace, opIssuedIds, idOpsCount, opIdCount, List.nil_append]
          rw [ih, hc]
          simp [opIdCount]
      | opConnect r1 r2 =>
          simp only [runTrace, opIssuedIds, idOpsCount, opIdCount]
          rw [ih, hc]
          simp only [opIdCount, Nat.add_comm 1 (idOpsCount ops)]
          rfl
      | opListTools r =>
          simp only [runTrace, opIssuedIds, idOpsCount, opIdCount]
          rw [ih, hc]
          simp only [opIdCount, Nat.add_comm 1 (idOpsCount ops)]
          rfl
      | opCallTool name args r =>
          simp only [runTrace, opIssuedIds, idOpsCount, opIdCount]
          rw [ih, hc]
          simp only [opIdCount, Nat.add_comm 1 (idOpsCount ops)]
          rfl

lemma idRange_mem : ∀ (n s x : Nat), x ∈ idRange s n → s ≤ x
  | 0, _, _, h => by simp [idRange] at h
  | n + 1, s, x, h => by
      rcases List.mem_cons.mp h with h | h
      · omega
      · have := idRange_mem n (s + 1) x h
        omega

lemma idRange_pairwise : ∀ (n s : Nat), List.Pairwise (· < ·) (idRange s n)
  | 0, _ => List.Pairwise.nil
  | n + 1, s => by
      refine List.Pairwise.cons ?_ (idRange_pairwise n (s + 1))
      intro x hx
      have := idRange_mem n (s + 1) x hx
      omega

/-! ## Spec-words definitions (used to compare claims with the code) -/

/-- The claim's "2xx" success range, written from the spec's words. -/
def is2xx (s : Nat) : Bool := decide (200 ≤ s ∧ s ≤ 299)

/-- Claim C3's "joins the payloads of its leading consecutive `data:`
lines", written from the claim's words: the payloads of the maximal run of
`data:` lines at the head of the stream. -/
def leadingDataJoin (lines : List String) : String :=
  String.intercalate "\n"
    (((lines.map pyStrip).takeWhile (fun s => pyStartsWith s "data: ")).map
      (fun s => pyDrop s 6))

lemma requestUnwrap_error (result : Json) (errFields : List (String × Json))
    (h : result.getField? "error" = some (.obj errFields)) :
    requestUnwrap result =
      .error (.protocolError
        ("JSON-RPC error " ++ pyStrOpt (errFields.lookup "code") ++ ": "
          ++ pyStrOpt (errFields.lookup "message"))) := by
  unfold requestUnwrap
  rw [h]

lemma requestUnwrap_ok (result : Json) (h : result.getField? "error" = none) :
    requestUnwrap result = .ok result := by
  unfold requestUnwrap
  rw [h]

/-! ## Claim theorems -/

/-- C1 (counterexample): the claim says every non-2xx status makes the
operation fail, but `response.raise_for_status()` only raises for statuses
at least 400: a `tools/list` POST answered with HTTP 304 (non-2xx, below
400) sails through and the operation succeeds. -/
theorem status_304_passes_raise_for_status :
    is2xx 304 = false
    ∧ (list_tools jsonLoadsStub tReady resp304).2.1 = .ok (Json.arr []) :=
  ⟨rfl, rfl⟩

/-- C1 (amended): for every transport operation (connect, list_tools,
call_tool) whose HTTP POST receives a status of at least 400, the operation
fails with the raised response error carrying that status, and the error is
classified as AuthError exactly for 401 and as ConnectionError for every
other such status; statuses below 400 are not raised on. -/
theorem nonOk_status_error_classification :
    (∀ (jl : String → Json) (t : Transport) (r1 r2 : HttpResponse),
        400 ≤ r1.status →
        (connect jl t r1 r2).2.1 = .error (.httpError r1.status))
    ∧ (∀ (jl : String → Json) (t : Transport) (r1 r2 : HttpResponse) (j : Json),
        r1.status < 400 → r1.body = .json j → 400 ≤ r2.status →
        (connect jl t r1 r2).2.1 = .error (.httpError r2.status))
    ∧ (∀ (jl : String → Json) (t : Transport) (resp : HttpResponse),
        t.sessionActive = true → 400 ≤ resp.status →
        (list_tools jl t resp).2.1 = .error (.httpError resp.status))
    ∧ (∀ (jl : String → Json) (t : Transport) (name : String) (args : Json)
        (resp : HttpResponse),
        t.sessionActive = true → 400 ≤ resp.status →
        (call_tool jl t name args resp).2.1 = .error (.httpError resp.status))
    ∧ specClass (.httpError 401) = .authError
    ∧ (∀ s : Nat, s ≠ 401 → specClass (.httpError s) = .connectionError) := by
  refine ⟨?_, ?_, ?_, ?_, rfl, ?_⟩
  · intro jl t r1 r2 hs
    simp only [connect]
    rw [rawRequest_httpError jl _ _ _ _ _ rfl hs]
  · intro jl t r1 r2 j hs1 hb hs2
    simp only [connect]
    rw [rawRequest_okJson jl _ _ _ _ j rfl hs1 hb]
    split
    · rename_i heq
      simp at heq
    · rename_i req1 _result hdrs heq
      simp only [Prod.mk.injEq, Except.ok.injEq] at heq
      obtain ⟨-, -, hh⟩ := heq
      subst hh
      rw [rawRequest_httpError jl _ _ _ _ _ rfl hs2]
  · intro jl t resp h hs
    simp only [list_tools]
    rw [rawRequest_httpError jl { t with counter := t.counter + 1 }
      (listToolsPayload t.counter) true none resp h hs]
  · intro jl t name args resp h hs
    simp only [call_tool]
    rw [rawRequest_httpError jl { t with counter := t.counter + 1 }
      (callToolPayload name args t.counter) true (some t.timeoutExecution) resp h hs]
  · intro s hns
    simp [specClass, hns]

/-- C1 (witness): the amended theorem applied to concrete inputs — a 500
answer on each operation, classified as ConnectionError, and 401 as
AuthError. -/
theorem nonOk_status_error_classification_witness :
    (connect jsonLoadsStub tFresh resp500 resp500).2.1 = .error (.httpError 500)
    ∧ (list_tools jsonLoadsStub tReady resp500).2.1 = .error (.httpError 500)
    ∧ (call_tool jsonLoadsStub tReady "x" (Json.obj []) resp500).2.1
        = .error (.httpError 500)
    ∧ specClass (.httpError 500) = .connectionError
    ∧ specClass (.httpError 401) = .authError := by
  obtain ⟨h1, h2, h3, h4, h5, h6⟩ := nonOk_status_error_classification
  exact ⟨h1 jsonLoadsStub tFresh resp500 resp500 (by decide),
         h3 jsonLoadsStub tReady resp500 rfl (by decide),
         h4 jsonLoadsStub tReady "x" (Json.obj []) resp500 rfl (by decide),
         h6 500 (by decide), h5⟩

/-- C2 (code bug): `connect()` on a transport that owns its HTTP client and
whose `initialize` POST fails (HTTP 500) raises, leaving the owned
`aiohttp.ClientSession` assigned and open — the code has no cleanup before
the raise; only a later explicit `disconnect()` closes it. -/
theorem failed_connect_leaves_owned_client_open :
    tFresh.hasExternalSession = false
    ∧ (connect jsonLoadsStub tFresh resp500 resp500).2.1 = .error (.httpError 500)
    ∧ ((connect jsonLoadsStub tFresh resp500 resp500).2.2).ownedClientOpen = true
    ∧ ((connect jsonLoadsStub tFresh resp500 resp500).2.2).sessionActive = true
    ∧ (disconnect ((connect jsonLoadsStub tFresh resp500 resp500).2.2)).ownedClientOpen
        = false :=
  ⟨rfl, rfl, rfl, rfl, rfl⟩

/-- C3 (counterexample): the claim says the parser joins the payloads of
the stream's leading consecutive `data:` lines, but the code joins every
`data:` line seen before the first blank line, skipping interleaved
non-`data:` lines: on `["data: 1", "event: x", "data: 2", ""]` the code
yields `"1\n2"` while the leading consecutive `data:` lines give `"1"`. -/
theorem sse_nonleading_data_lines_joined :
    parse_sse Json.str ["data: 1", "event: x", "data: 2", ""]
      = .ok (Json.str "1\n2", [])
    ∧ leadingDataJoin ["data: 1", "event: x", "data: 2", ""] = "1"
    ∧ ("1\n2" : String) ≠ "1" :=
  ⟨rfl, rfl, by decide⟩

/-- C3 (amended): the SSE parser joins, with newline, the payloads of all
`data:` lines seen before the event ends (non-empty non-`data:` lines are
skipped) and hands the joined payload to `json.loads`; an empty line after
at least one `data:` line ends the event and the parser returns immediately
without consuming the rest of the stream; at end of stream the buffered
payloads are still returned; and a stream with no `data:` lines at all
fails with `MCPTransportError` (ProtocolError). -/
theorem sse_event_framing :
    ∀ (jsonLoads : String → Json),
    (∀ (pre : List String) (e : String) (rest : List String),
        noFlushBoundary false pre = true → pyStrip e = "" → ssePayloads pre ≠ [] →
        parse_sse jsonLoads (pre ++ e :: rest) =
          .ok (jsonLoads (String.intercalate "\n" (ssePayloads pre)), rest))
    ∧ (∀ (lines : List String),
        noFlushBoundary false lines = true → ssePayloads lines ≠ [] →
        parse_sse jsonLoads lines =
          .ok (jsonLoads (String.intercalate "\n" (ssePayloads lines)), []))
    ∧ (∀ (lines : List String), ssePayloads lines = [] →
        parse_sse jsonLoads lines =
          .error (.protocolError "SSE stream ended without any data")) := by
  intro jl
  refine ⟨?_, ?_, ?_⟩
  · intro pre e rest hb he hne
    have hh := sseLoop_boundary pre e rest [] hb he hne
    simp [parse_sse, hh]
  · intro lines hb hne
    have hh := sseLoop_flush lines [] hb hne
    simp [parse_sse, hh]
  · intro lines hpay
    have hh := sseLoop_no_data lines hpay
    simp [parse_sse, hh]

/-- C3 (witness): the amended theorem applied to concrete streams — an
event ending in a blank line (the trailing `data: zz` is left unconsumed),
a stream ending without terminator (lenient flush), and a stream without
any `data:` line. -/
theorem sse_event_framing_witness :
    parse_sse Json.str ["event: message", "data: a", "data: b", "", "data: zz"]
      = .ok (Json.str "a\nb", ["data: zz"])
    ∧ parse_sse Json.str ["data: a", "data: b"] = .ok (Json.str "a\nb", [])
    ∧ parse_sse Json.str ["event: message", ""]
        = .error (.protocolError "SSE stream ended without any data") := by
  refine ⟨?_, ?_, ?_⟩
  · exact (sse_event_framing Json.str).1 ["event: message", "data: a", "data: b"]
      "" ["data: zz"] rfl rfl (by decide)
  · exact (sse_event_framing Json.str).2.1 ["data: a", "data: b"] rfl (by decide)
  · exact (sse_event_framing Json.str).2.2 ["event: message", ""] rfl

/-- C4: `list_tools()` and `call_tool()` on a transport that is not Ready
(never connected — fresh out of the constructor — or after `disconnect()`)
fail with `RuntimeError("Not connected")`, the spec's NotConnectedError; in
particular `connect()` immediately followed by `disconnect()` leaves the
transport in a state where `list_tools()` so fails. -/
theorem not_ready_operations_fail_notConnected :
    (∀ (jl : String → Json) (t : Transport) (resp : HttpResponse),
        t.sessionActive = false →
        (list_tools jl t resp).2.1 = .error .notConnected)
    ∧ (∀ (jl : String → Json) (t : Transport) (name : String) (args : Json)
        (resp : HttpResponse),
        t.sessionActive = false →
        (call_tool jl t name args resp).2.1 = .error .notConnected)
    ∧ (∀ url tok tc te ext, (mkTransport url tok tc te ext).sessionActive = false)
    ∧ (∀ (t : Transport), (disconnect t).sessionActive = false)
    ∧ (∀ (jl : String → Json) url tok tc te ext (r1 r2 resp : HttpResponse),
        (list_tools jl
          (disconnect ((connect jl (mkTransport url tok tc te ext) r1 r2).2.2))
          resp).2.1 = .error .notConnected)
    ∧ specClass .notConnected = .notConnectedError := by
  refine ⟨?_, ?_, fun _ _ _ _ _ => rfl, fun _ => rfl, ?_, rfl⟩
  · intro jl t resp h
    exact list_tools_notConnected jl t resp h
  · intro jl t name args resp h
    exact call_tool_notConnected jl t name args resp h
  · intro jl url tok tc te ext r1 r2 resp
    exact list_tools_notConnected jl _ resp (disconnect_sessionActive _)

/-- C4 (witness): the theorem applied to a fresh transport and to a
connect-then-disconnect transport. -/
theorem not_ready_operations_fail_notConnected_witness :
    (list_tools jsonLoadsStub tFresh resp304).2.1 = .error .notConnected
    ∧ (call_tool jsonLoadsStub tFresh "x" (Json.obj []) resp304).2.1
        = .error .notConnected
    ∧ (list_tools jsonLoadsStub
        (disconnect ((connect jsonLoadsStub tFresh resp304 resp304).2.2))
        resp304).2.1 = .error .notConnected := by
  obtain ⟨h1, h2, h3, h4, h5, h6⟩ := not_ready_operations_fail_notConnected
  exact ⟨h1 jsonLoadsStub tFresh resp304 rfl,
         h2 jsonLoadsStub tFresh "x" (Json.obj []) resp304 rfl,
         h5 jsonLoadsStub "http://gw/mcp" none 10 60 false resp304 resp304 resp304⟩

/-- C5: a response envelope carrying a JSON-RPC `error` object with numeric
code `c` and message `m` makes `_request` (hence `list_tools` and
`call_tool`) fail with `MCPTransportError` whose message is exactly
`"JSON-RPC error c: m"` (so it contains both the code and the message);
an envelope without an `error` key is passed through and the operation
unwraps `result` instead. -/
theorem jsonrpc_error_envelope_handling :
    (∀ (result : Json) (errFields : List (String × Json)) (c : Int) (m : String),
        result.getField? "error" = some (.obj errFields) →
        errFields.lookup "code" = some (Json.num c) →
        errFields.lookup "message" = some (Json.str m) →
        requestUnwrap result =
          .error (.protocolError ("JSON-RPC error " ++ toString c ++ ": " ++ m)))
    ∧ (∀ (result : Json), result.getField? "error" = none →
        requestUnwrap result = .ok result)
    ∧ (∀ (jl : String → Json) (t : Transport) (resp : HttpResponse) (body : Json),
        t.sessionActive = true → resp.status < 400 → resp.body = .json body →
        body.getField? "error" = none →
        (list_tools jl t resp).2.1 =
          .ok (jsonGetD (jsonGetD body "result" (.obj [])) "tools" (.arr []))
        ∧ (∀ (name : String) (args : Json),
            (call_tool jl t name args resp).2.1 =
              .ok (jsonGetD body "result" (.obj []))))
    ∧ (∀ (jl : String → Json) (t : Transport) (resp : HttpResponse) (body : Json)
        (errFields : List (String × Json)) (c : Int) (m : String),
        t.sessionActive = true → resp.status < 400 → resp.body = .json body →
        body.getField? "error" = some (.obj errFields) →
        errFields.lookup "code" = some (Json.num c) →
        errFields.lookup "message" = some (Json.str m) →
        (list_tools jl t resp).2.1 =
          .error (.protocolError ("JSON-RPC error " ++ toString c ++ ": " ++ m))
        ∧ (∀ (name : String) (args : Json),
            (call_tool jl t name args resp).2.1 =
              .error (.protocolError ("JSON-RPC error " ++ toString c ++ ": " ++ m)))) := by
  refine ⟨?_, ?_, ?_, ?_⟩
  · intro result errFields c m herr hc hm
    rw [requestUnwrap_error result errFields herr, hc, hm]
    rfl
  · intro result h
    exact requestUnwrap_ok result h
  · intro jl t resp body h hs hb hnone
    constructor
    · have hl := list_tools_result jl t resp body h hs hb
      rw [requestUnwrap_ok body hnone] at hl
      exact hl
    · intro name args
      have hl := call_tool_result jl t name args resp body h hs hb
      rw [requestUnwrap_ok body hnone] at hl
      exact hl
  · intro jl t resp body errFields c m h hs hb herr hc hm
    constructor
    · have hl := list_tools_result jl t resp body h hs hb
      rw [requestUnwrap_error body errFields herr, hc, hm] at hl
      exact hl
    · intro name args
      have hl := call_tool_result jl t name args resp body h hs hb
      rw [requestUnwrap_error body errFields herr, hc, hm] at hl
      exact hl

/-- C5 (witness): the theorem applied to the spec's example envelope
`{"error": {"code": -32601, "message": "not found"}}` and to an error-free
envelope. -/
theorem jsonrpc_error_envelope_handling_witness :
    requestUnwrap errEnvelope
      = .error (.protocolError "JSON-RPC error -32601: not found")
    ∧ (call_tool jsonLoadsStub tReady "x" (Json.obj []) respErr).2.1
        = .error (.protocolError "JSON-RPC error -32601: not found")
    ∧ (list_tools jsonLoadsStub tReady respOk).2.1 = .ok (Json.arr []) := by
  obtain ⟨h1, h2, h3, h4⟩ := jsonrpc_error_envelope_handling
  refine ⟨?_, ?_, ?_⟩
  · exact (h1 errEnvelope
      [("code", Json.num (-32601)), ("message", Json.str "not found")]
      (-32601) "not found" rfl rfl rfl).trans (by rfl)
  · exact (((h4 jsonLoadsStub tReady respErr errEnvelope
      [("code", Json.num (-32601)), ("message", Json.str "not found")]
      (-32601) "not found" rfl (by decide) rfl rfl rfl rfl).2) "x" (Json.obj [])).trans
      (by rfl)
  · exact ((h3 jsonLoadsStub tReady respOk okEnvelope rfl (by decide) rfl rfl).1).trans
      (by rfl)

/-- C6: `_extract_result` scans `content` in order, collects the `text` of
every element whose `type` is `"text"`, and joins them with newline; when
no element is text-typed it returns `{"result": str(result)}` — it never
raises merely because `content` has no text parts.  The hypotheses scope
the statement to well-formed Tool Results (each part a dict, text-typed
parts carrying a string `text`), where the Python code is total. -/
theorem extract_result_joins_text_parts :
    ∀ (result : Json) (parts : List Json),
    result.getField? "content" = some (.arr parts) →
    (∀ p ∈ parts, textTyped p = true → ∃ s, p.getField? "text" = some (Json.str s)) →
    extract_result result =
      .ok (Json.obj [("result", Json.str
        (if specTexts parts = [] then pyStr result
         else String.intercalate "\n" (specTexts parts)))]) := by
  intro result parts hc hp
  have hcol := collectTextParts_spec parts hp
  simp only [extract_result, hc, Option.getD_some]
  rw [hcol]
  by_cases hnil : specTexts parts = []
  · simp [hnil]
  · cases hsp : specTexts parts with
    | nil => exact absurd hsp hnil
    | cons s ss =>
        have hall := allStrings_map (s :: ss)
        simp only [List.map_cons] at hall
        simp [hsp, hall, hnil]

/-- C6 (witness): the theorem applied to the spec's example Tool Result,
yielding `"A\nB"`. -/
theorem extract_result_joins_text_parts_witness :
    extract_result exampleToolResult = .ok (Json.obj [("result", Json.str "A\nB")]) := by
  have hp : ∀ p ∈ [Json.obj [("type", Json.str "text"), ("text", Json.str "A")],
                   Json.obj [("type", Json.str "text"), ("text", Json.str "B")]],
      textTyped p = true → ∃ s, p.getField? "text" = some (Json.str s) := by
    intro p hp _ht
    rcases List.mem_cons.mp hp with rfl | hp
    · exact ⟨"A", rfl⟩
    rcases List.mem_cons.mp hp with rfl | hp
    · exact ⟨"B", rfl⟩
    exact absurd hp (List.not_mem_nil p)
  exact (extract_result_joins_text_parts exampleToolResult _ rfl hp).trans (by rfl)

/-- C7: `filter_tool_results` returns a copy in which the `auth_token`
value, when present, is replaced by `"**REDACTED**"`, every other key-value
pair is unchanged (and an input without the key is returned as-is, with the
key set always preserved); the input association list itself is never
modified — the function is pure and the Python code writes only to the
`dict(data)` copy. -/
theorem filter_tool_results_redaction :
    (∀ (data : List (String × Json)),
        (data.lookup CONF_AUTH_TOKEN).isSome = true →
        (filter_tool_results data).lookup CONF_AUTH_TOKEN
          = some (Json.str "**REDACTED**"))
    ∧ (∀ (data : List (String × Json)) (k : String), k ≠ CONF_AUTH_TOKEN →
        (filter_tool_results data).lookup k = data.lookup k)
    ∧ (∀ (data : List (String × Json)),
        data.lookup CONF_AUTH_TOKEN = none → filter_tool_results data = data)
    ∧ (∀ (data : List (String × Json)),
        (filter_tool_results data).map Prod.fst = data.map Prod.fst)
    ∧ filter_tool_results [(CONF_AUTH_TOKEN, Json.str "secret"), ("x", Json.num 1)]
        = [(CONF_AUTH_TOKEN, Json.str "**REDACTED**"), ("x", Json.num 1)] := by
  refine ⟨?_, ?_, ?_, ?_, rfl⟩
  · intro data h
    unfold filter_tool_results
    rw [if_pos h]
    exact filter_lookup_token data h
  · intro data k hk
    unfold filter_tool_results
    split
    · exact filter_lookup_other data k hk
    · rfl
  · intro data h
    unfold filter_tool_results
    rw [if_neg (by simp [h])]
  · intro data
    unfold filter_tool_results
    split
    · exact filter_keys data
    · rfl

/-- C7 (witness): the theorem applied to the spec's example mapping. -/
theorem filter_tool_results_redaction_witness :
    (filter_tool_results [(CONF_AUTH_TOKEN, Json.str "secret"), ("x", Json.num 1)]).lookup
        CONF_AUTH_TOKEN = some (Json.str "**REDACTED**")
    ∧ (filter_tool_results [(CONF_AUTH_TOKEN, Json.str "secret"), ("x", Json.num 1)]).lookup
        "x" = some (Json.num 1) := by
  obtain ⟨h1, h2, h3, h4, h5⟩ := filter_tool_results_redaction
  exact ⟨h1 [(CONF_AUTH_TOKEN, Json.str "secret"), ("x", Json.num 1)] rfl,
         (h2 [(CONF_AUTH_TOKEN, Json.str "secret"), ("x", Json.num 1)] "x"
           (by decide)).trans rfl⟩

/-- C8 (counterexample): the claim says every `call_tool` HTTP call is
bound by the (caller-configurable) execution timeout, but with an execution
timeout of 0 the Python `or`-defaulting in `_raw_request` silently falls
back to the connection timeout: the POST goes out with `total=10` (the
connection timeout), not the configured execution budget. -/
theorem call_tool_zero_execution_timeout_fallback :
    tExecZero.timeoutExecution = 0
    ∧ tExecZero.timeoutConnection = 10
    ∧ Option.map (fun r => r.timeout)
        (call_tool jsonLoadsStub tExecZero "x" (Json.obj []) resp304).1 = some 10
    ∧ (10 : Nat) ≠ tExecZero.timeoutExecution :=
  ⟨rfl, rfl, rfl, by decide⟩

/-- C8 (amended): `connect` and `list_tools` POSTs always use the
connection timeout; a `call_tool` POST uses the execution timeout whenever
it is nonzero, and falls back to the connection timeout when it is 0
(Python `or`-defaulting); the integration-level defaults are 10 s
(connection) and 60 s (execution), both caller-configurable. -/
theorem timeout_budget_selection :
    (∀ (t : Transport), requestTimeout t none = t.timeoutConnection)
    ∧ (∀ (jl : String → Json) (t : Transport) (r1 r2 : HttpResponse)
        (req : IssuedRequest), req ∈ (connect jl t r1 r2).1 →
        req.timeout = t.timeoutConnection)
    ∧ (∀ (jl : String → Json) (t : Transport) (resp : HttpResponse),
        t.sessionActive = true →
        Option.map (fun r => r.timeout) (list_tools jl t resp).1
          = some t.timeoutConnection)
    ∧ (∀ (jl : String → Json) (t : Transport) (name : String) (args : Json)
        (resp : HttpResponse),
        t.sessionActive = true → t.timeoutExecution ≠ 0 →
        Option.map (fun r => r.timeout) (call_tool jl t name args resp).1
          = some t.timeoutExecution)
    ∧ (∀ (jl : String → Json) (t : Transport) (name : String) (args : Json)
        (resp : HttpResponse),
        t.sessionActive = true → t.timeoutExecution = 0 →
        Option.map (fun r => r.timeout) (call_tool jl t name args resp).1
          = some t.timeoutConnection)
    ∧ DEFAULT_TIMEOUT_CONNECTION = 10 ∧ DEFAULT_TIMEOUT_EXECUTION = 60 := by
  refine ⟨fun t => rfl, ?_, ?_, ?_, ?_, rfl, rfl⟩
  · intro jl t r1 r2 req hreq
    simp only [connect] at hreq
    split at hreq
    · rename_i req1 e heq
      have hf := rawRequest_fst jl
        { t with sessionActive := true, ownedClientOpen := !t.hasExternalSession,
                 counter := t.counter + 1 }
        (initializePayload t.counter) true none r1 rfl
      rw [heq] at hf
      simp only at hf
      subst hf
      simp only [Option.toList_some, List.mem_singleton] at hreq
      subst hreq
      rfl
    · rename_i req1 res hdrs heq
      have hf := rawRequest_fst jl
        { t with sessionActive := true, ownedClientOpen := !t.hasExternalSession,
                 counter := t.counter + 1 }
        (initializePayload t.counter) true none r1 rfl
      rw [heq] at hf
      simp only at hf
      subst hf
      split at hreq
      all_goals
        rename_i req2 heq2
        first
        | (have hf2 := rawRequest_fst jl
            { t with sessionActive := true, ownedClientOpen := !t.hasExternalSession,
                     counter := t.counter + 1,
                     sessionId := hdrs.lookup "Mcp-Session-Id" }
            initializedNotification false none r2 rfl
           rw [heq2] at hf2
           simp only at hf2
           subst hf2
           simp only [Option.toList_some, List.mem_append, List.mem_singleton] at hreq
           rcases hreq with rfl | rfl <;> rfl)
  · intro jl t resp h
    rw [list_tools_fst jl t resp h]
    rfl
  · intro jl t name args resp h hne
    rw [call_tool_fst jl t name args resp h]
    simp [requestTimeout, hne]
  · intro jl t name args resp h hz
    rw [call_tool_fst jl t name args resp h]
    simp [requestTimeout, hz]

/-- C8 (witness): the amended theorem applied to concrete transports —
default budgets 10/60, a `list_tools` POST at `total=10`, a `call_tool`
POST at `total=60`, and a `connect` POST at `total=10`. -/
theorem timeout_budget_selection_witness :
    Option.map (fun r => r.timeout) (list_tools jsonLoadsStub tReady resp304).1
      = some 10
    ∧ Option.map (fun r => r.timeout)
        (call_tool jsonLoadsStub tReady "x" (Json.obj []) resp304).1 = some 60
    ∧ (∀ req ∈ (connect jsonLoadsStub tFresh resp304 resp304).1, req.timeout = 10) := by
  obtain ⟨h1, h2, h3, h4, h5, h6, h7⟩ := timeout_budget_selection
  exact ⟨h3 jsonLoadsStub tReady resp304 rfl,
         h4 jsonLoadsStub tReady "x" (Json.obj []) resp304 rfl (by decide),
         fun req hreq => h2 jsonLoadsStub tFresh resp304 resp304 req hreq⟩

lemma authHeader_some (tok : String) (h : tok ≠ "") :
    authHeader (some tok) = [("Authorization", "Bearer " ++ tok)] := by
  simp [authHeader, h]

lemma sessionHeader_some (sid : String) (h : sid ≠ "") :
    sessionHeader (some sid) = [("Mcp-Session-Id", sid)] := by
  simp [sessionHeader, h]

lemma lookup_auth_of_empty (t : Transport) (ha : authHeader t.authToken = []) :
    (buildHeaders t).lookup "Authorization" = none := by
  simp only [buildHeaders]
  rw [ha]
  cases hs : t.sessionId with
  | none => rfl
  | some sid =>
      by_cases hemp : sid = ""
      · simp [sessionHeader, hemp]
      · rw [sessionHeader_some sid hemp]
        rfl

lemma lookup_sid_of_empty (t : Transport) (hs : sessionHeader t.sessionId = []) :
    (buildHeaders t).lookup "Mcp-Session-Id" = none := by
  simp only [buildHeaders]
  rw [hs]
  cases ha : t.authToken with
  | none => rfl
  | some tok =>
      by_cases hemp : tok = ""
      · simp [authHeader, hemp]
      · rw [authHeader_some tok hemp]
        rfl

lemma lookup_sid_some (t : Transport) (sid : String) (h : t.sessionId = some sid)
    (hemp : sid ≠ "") :
    (buildHeaders t).lookup "Mcp-Session-Id" = some sid := by
  simp only [buildHeaders]
  rw [h, sessionHeader_some sid hemp]
  cases ha : t.authToken with
  | none => rfl
  | some tok =>
      by_cases he : tok = ""
      · rw [he]
        rfl
      · rw [authHeader_some tok he]
        rfl

/-- C9: every issued request carries `Content-Type: application/json` and
`Accept: application/json, text/event-stream`; it carries
`Authorization: Bearer tok` exactly when a (non-empty, i.e. truthy) token
is configured; it carries `Mcp-Session-Id: sid` exactly when a non-empty
session identifier is held; `connect()` records the `Mcp-Session-Id`
response header of the `initialize` POST, and every subsequent request's
headers are `_build_headers()` of the resulting state and therefore echo
that identifier. -/
theorem header_construction_and_session_echo :
    (∀ (t : Transport),
        (buildHeaders t).lookup "Content-Type" = some "application/json")
    ∧ (∀ (t : Transport),
        (buildHeaders t).lookup "Accept" = some "application/json, text/event-stream")
    ∧ (∀ (t : Transport) (tok : String), t.authToken = some tok → tok ≠ "" →
        (buildHeaders t).lookup "Authorization" = some ("Bearer " ++ tok))
    ∧ (∀ (t : Transport), t.authToken = none ∨ t.authToken = some "" →
        (buildHeaders t).lookup "Authorization" = none)
    ∧ (∀ (t : Transport) (sid : String), t.sessionId = some sid → sid ≠ "" →
        (buildHeaders t).lookup "Mcp-Session-Id" = some sid)
    ∧ (∀ (t : Transport), t.sessionId = none ∨ t.sessionId = some "" →
        (buildHeaders t).lookup "Mcp-Session-Id" = none)
    ∧ (∀ (jl : String → Json) (t : Transport) (r1 r2 : HttpResponse) (j : Json),
        r1.status < 400 → r1.body = .json j →
        ((connect jl t r1 r2).2.2).sessionId = r1.headers.lookup "Mcp-Session-Id")
    ∧ (∀ (jl : String → Json) (t : Transport) (resp : HttpResponse),
        t.sessionActive = true →
        Option.map (fun r => r.headers) (list_tools jl t resp).1
          = some (buildHeaders t))
    ∧ (∀ (jl : String → Json) (t : Transport) (name : String) (args : Json)
        (resp : HttpResponse), t.sessionActive = true →
        Option.map (fun r => r.headers) (call_tool jl t name args resp).1
          = some (buildHeaders t))
    ∧ (∀ (jl : String → Json) (t : Transport) (r1 r2 resp : HttpResponse)
        (j : Json) (sid : String),
        r1.status < 400 → r1.body = .json j →
        r1.headers.lookup "Mcp-Session-Id" = some sid → sid ≠ "" →
        Option.map (fun r => r.headers.lookup "Mcp-Session-Id")
          (list_tools jl ((connect jl t r1 r2).2.2) resp).1 = some (some sid)) := by
  refine ⟨fun t => rfl, fun t => rfl, ?_, ?_, ?_, ?_, ?_, ?_, ?_, ?_⟩
  · intro t tok h htok
    simp only [buildHeaders]
    rw [h, authHeader_some tok htok]
    rfl
  · intro t h
    rcases h with h | h
    · exact lookup_auth_of_empty t (by rw [h]; rfl)
    · exact lookup_auth_of_empty t (by rw [h]; rfl)
  · intro t sid h hemp
    exact lookup_sid_some t sid h hemp
  · intro t h
    rcases h with h | h
    · exact lookup_sid_of_empty t (by rw [h]; rfl)
    · exact lookup_sid_of_empty t (by rw [h]; rfl)
  · intro jl t r1 r2 j hs hb
    exact connect_sessionId jl t r1 r2 j hs hb
  · intro jl t resp h
    rw [list_tools_fst jl t resp h]
    rfl
  · intro jl t name args resp h
    rw [call_tool_fst jl t name args resp h]
    rfl
  · intro jl t r1 r2 resp j sid hs hb hlook hemp
    have h1 := connect_sessionId jl t r1 r2 j hs hb
    rw [hlook] at h1
    rw [list_tools_fst jl _ resp (connect_sessionActive jl t r1 r2)]
    have hfin := lookup_sid_some ((connect jl t r1 r2).2.2) sid h1 hemp
    simp [hfin]

/-- C9 (witness): the theorem applied to a transport with token `"tok"`
whose `initialize` answer carries `Mcp-Session-Id: abc`: the next
`tools/list` POST echoes the identifier, and the fixed headers are
present. -/
theorem header_construction_and_session_echo_witness :
    (buildHeaders tReady).lookup "Content-Type" = some "application/json"
    ∧ (buildHeaders tReady).lookup "Accept"
        = some "application/json, text/event-stream"
    ∧ (buildHeaders { tReady with authToken := some "tok" }).lookup "Authorization"
        = some "Bearer tok"
    ∧ (buildHeaders tReady).lookup "Authorization" = none
    ∧ Option.map (fun r => r.headers.lookup "Mcp-Session-Id")
        (list_tools jsonLoadsStub
          ((connect jsonLoadsStub tFresh
            { status := 200, headers := [("Mcp-Session-Id", "abc")],
              body := .json okEnvelope }
            respOk).2.2)
          respOk).1 = some (some "abc") := by
  obtain ⟨h1, h2, h3, h4, h5, h6, h7, h8, h9, h10⟩ :=
    header_construction_and_session_echo
  exact ⟨h1 tReady, h2 tReady,
         h3 { tReady with authToken := some "tok" } "tok" rfl (by decide),
         h4 tReady (Or.inl rfl),
         h10 jsonLoadsStub tFresh
           { status := 200, headers := [("Mcp-Session-Id", "abc")],
             body := .json okEnvelope }
           respOk respOk okEnvelope "abc" (by decide) rfl rfl (by decide)⟩

/-- C10: `disconnect()` clears the session identifier but leaves the
request-id counter untouched (it is created once in `__init__` and never
reset), and `connect()` advances it by one; hence over any sequence of
operations on one instance — reconnects included — the issued JSON-RPC ids
are exactly 1, 2, 3, …: strictly increasing and unique for the instance's
whole lifetime, never restarting at 1 after a reconnect. -/
theorem request_ids_strictly_increasing_across_reconnects :
    (∀ (t : Transport), (disconnect t).sessionId = none)
    ∧ (∀ (t : Transport), (disconnect t).counter = t.counter)
    ∧ (∀ (jl : String → Json) (t : Transport) (r1 r2 : HttpResponse),
        ((connect jl t r1 r2).2.2).counter = t.counter + 1)
    ∧ (∀ (jl : String → Json) url tok tc te ext (ops : List Op),
        (runTrace jl (mkTransport url tok tc te ext) ops).1
          = idRange 1 (idOpsCount ops))
    ∧ (∀ (jl : String → Json) (t : Transport) (ops : List Op),
        List.Pairwise (· < ·) (runTrace jl t ops).1)
    ∧ (∀ (jl : String → Json) (t : Transport) (ops : List Op),
        ((runTrace jl t ops).1).Nodup) := by
  refine ⟨fun t => rfl, fun t => rfl,
    fun jl t r1 r2 => connect_counter jl t r1 r2, ?_, ?_, ?_⟩
  · intro jl url tok tc te ext ops
    exact runTrace_ids jl ops (mkTransport url tok tc te ext)
  · intro jl t ops
    rw [runTrace_ids]
    exact idRange_pairwise _ _
  · intro jl t ops
    rw [runTrace_ids]
    exact List.Pairwise.imp (fun h => Nat.ne_of_lt h) (idRange_pairwise _ _)

end MCPClient
